import Mathlib

/-!
Verification of the Noor-Zakat calculator (khalid-codes/Noor-Zakat).

The repository ships a React frontend (`frontend/src/App.js`) and a FastAPI
backend (`backend/server.py`).  Only the frontend source is available here;
the backend — the Rate Cache, Rate Normalizer, Nisab Calculator and Zakat
Calculator — is modelled from the specification (definitions carrying a
`Modelled from the spec:` doc comment).  Frontend behaviour (the input
change handlers and the response-field reads) is embedded directly from
`App.js`.  All arithmetic is over ℚ, exact by construction.
-/

/-- Origin tag of a rate snapshot (spec §3, RateQuote.source: LIVE | FALLBACK). -/
inductive RateSource where
  | LIVE : RateSource
  | FALLBACK : RateSource
deriving DecidableEq, Repr

/-- Modelled from the spec: the RateQuote snapshot of §3 (the backend
`backend/server.py` that constructs it is absent from src/): per-gram prices
for 24K/22K/18K gold and silver, a fetch timestamp and a source tag. -/
structure RateQuote where
  gold_24k_per_gram : ℚ
  gold_22k_per_gram : ℚ
  gold_18k_per_gram : ℚ
  silver_per_gram : ℚ
  fetched_at : ℚ
  source : RateSource
deriving DecidableEq, Repr

/-- Modelled from the spec: NisabThresholds of §3 (backend absent from src/). -/
structure NisabThresholds where
  gold_value : ℚ
  silver_value : ℚ
deriving DecidableEq, Repr

/-- Modelled from the spec: the Nisab Calculator of §4.4 (backend absent from
src/): `gold_value` = 87.48 g × gold_24k_per_gram, `silver_value` = 612.36 g ×
silver_per_gram. -/
def nisabThresholds (q : RateQuote) : NisabThresholds :=
  { gold_value := 8748 / 100 * q.gold_24k_per_gram
    silver_value := 61236 / 100 * q.silver_per_gram }

/-- AssetDeclaration: the ten asset fields, exactly as initialised in
`App.js` lines 16-27 (four weight-based, six currency-based). -/
structure AssetDeclaration where
  gold_24k_grams : ℚ
  gold_22k_grams : ℚ
  gold_18k_grams : ℚ
  silver_grams : ℚ
  cash_in_hand : ℚ
  bank_savings : ℚ
  business_inventory : ℚ
  investments : ℚ
  receivables : ℚ
  other_assets : ℚ
deriving DecidableEq, Repr

/-- LiabilityDeclaration: the three liability fields, as initialised in
`App.js` lines 30-34. -/
structure LiabilityDeclaration where
  short_term_debts : ℚ
  immediate_expenses : ℚ
  other_liabilities : ℚ
deriving DecidableEq, Repr

/-- Modelled from the spec: ZakatResult of §3 (backend absent from src/);
field names match what the frontend summary panel reads in `App.js`
lines 510-559. -/
structure ZakatResult where
  total_assets : ℚ
  total_liabilities : ℚ
  net_wealth : ℚ
  nisab_basis : String
  nisab_threshold : ℚ
  is_zakat_applicable : Bool
  zakat_amount : ℚ
deriving DecidableEq, Repr

/-- Modelled from the spec: §4.5 steps 1-2 (backend absent from src/): each
weight-based asset converted at its per-gram rate, plus the currency-based
assets, summed exactly with no intermediate rounding. -/
def totalAssets (a : AssetDeclaration) (q : RateQuote) : ℚ :=
  a.gold_24k_grams * q.gold_24k_per_gram +
  a.gold_22k_grams * q.gold_22k_per_gram +
  a.gold_18k_grams * q.gold_18k_per_gram +
  a.silver_grams * q.silver_per_gram +
  a.cash_in_hand + a.bank_savings + a.business_inventory +
  a.investments + a.receivables + a.other_assets

/-- Modelled from the spec: §4.5 step 3 (backend absent from src/). -/
def totalLiabilities (l : LiabilityDeclaration) : ℚ :=
  l.short_term_debts + l.immediate_expenses + l.other_liabilities

/-- Modelled from the spec: §4.5 step 4 (backend absent from src/):
net wealth is the exact difference, possibly negative, never clamped. -/
def netWealth (a : AssetDeclaration) (l : LiabilityDeclaration) (q : RateQuote) : ℚ :=
  totalAssets a q - totalLiabilities l

/-- Modelled from the spec: §6 (backend absent from src/): `nisab_basis`
defaults to "silver" if omitted or unrecognized; only "gold" selects the
gold basis. -/
def resolveBasis (b : Option String) : String :=
  if b = some "gold" then "gold" else "silver"

/-- Modelled from the spec: §4.5 step 5 (backend absent from src/). -/
def selectThreshold (basis : String) (q : RateQuote) : ℚ :=
  if basis = "gold" then (nisabThresholds q).gold_value
  else (nisabThresholds q).silver_value

/-- Half-up rounding to 2 decimal places (spec §4.5 step 7). -/
def roundHalfUp2 (x : ℚ) : ℚ :=
  ((⌊x * 100 + 1 / 2⌋ : ℤ) : ℚ) / 100

/-- Modelled from the spec: the Zakat Calculator of §4.5 (backend absent
from src/): steps 1-7, with rounding applied once at the final step only. -/
def calculateZakat (a : AssetDeclaration) (l : LiabilityDeclaration)
    (b : Option String) (q : RateQuote) : ZakatResult :=
  { total_assets := totalAssets a q
    total_liabilities := totalLiabilities l
    net_wealth := netWealth a l q
    nisab_basis := resolveBasis b
    nisab_threshold := selectThreshold (resolveBasis b) q
    is_zakat_applicable := decide (selectThreshold (resolveBasis b) q ≤ netWealth a l q)
    zakat_amount :=
      if selectThreshold (resolveBasis b) q ≤ netWealth a l q
      then roundHalfUp2 (netWealth a l q * (25 / 1000))
      else 0 }

/-- The example rate quote of spec §8: gold_24k 6000, gold_22k 5500,
silver 80 per gram (gold_18k 4500 = 6000 × 18/24 per §4.1). -/
def exQuote : RateQuote :=
  { gold_24k_per_gram := 6000
    gold_22k_per_gram := 5500
    gold_18k_per_gram := 4500
    silver_per_gram := 80
    fetched_at := 0
    source := RateSource.LIVE }

/-- The all-zero asset declaration (initial state, `App.js` lines 16-27). -/
def initialAssets : AssetDeclaration :=
  { gold_24k_grams := 0, gold_22k_grams := 0, gold_18k_grams := 0
    silver_grams := 0, cash_in_hand := 0, bank_savings := 0
    business_inventory := 0, investments := 0, receivables := 0
    other_assets := 0 }

/-- The all-zero liability declaration (initial state, `App.js` lines 30-34). -/
def initialLiabilities : LiabilityDeclaration :=
  { short_term_debts := 0, immediate_expenses := 0, other_liabilities := 0 }

/-- The example declaration of spec §8: 10 g of 24K gold, 40,000 cash. -/
def exAssets : AssetDeclaration :=
  { initialAssets with gold_24k_grams := 10, cash_in_hand := 40000 }

/-- The example liabilities of spec §8: 5,000 of short-term debt. -/
def exLiabilities : LiabilityDeclaration :=
  { initialLiabilities with short_term_debts := 5000 }

/-! ## Frontend input handlers (`App.js` lines 104-116)

`handleAssetChange` and `handleLiabilityChange` both store
`parseFloat(value) || 0` into the corresponding state field.  We model
JavaScript `parseFloat` on the optional-sign decimal literals produced by
the app's `<input type="number">` fields: an optional `+`/`-` sign, then
digits, then an optional `.` and fraction digits, longest prefix; a string
with no leading digits parses to NaN, modelled as `none`. -/

/-- Longest leading run of decimal digits of a character list, as digit
values, together with the unconsumed remainder. -/
def takeDigits : List Char → List ℕ × List Char
  | [] => ([], [])
  | c :: cs =>
    if c.isDigit then
      let p := takeDigits cs
      ((c.toNat - 48) :: p.1, p.2)
    else ([], c :: cs)

/-- Value of a digit list read in base 10. -/
def natOfDigits (ds : List ℕ) : ℕ := ds.foldl (fun acc d => 10 * acc + d) 0

/-- Syntactic part of `parseFloat`: sign flag, integer digits, fraction
digits; `none` when no digits are found (JavaScript NaN). -/
def parseDecimal (s : String) : Option (Bool × List ℕ × List ℕ) :=
  let p0 : Bool × List Char :=
    match s.data with
    | '-' :: rest => (true, rest)
    | '+' :: rest => (false, rest)
    | cs => (false, cs)
  let p1 := takeDigits p0.2
  let fr : List ℕ :=
    match p1.2 with
    | '.' :: rest => (takeDigits rest).1
    | _ => []
  if p1.1.isEmpty && fr.isEmpty then none
  else some (p0.1, p1.1, fr)

/-- Numeric value of a parsed sign/integer-digits/fraction-digits triple. -/
def decimalValue : Bool × List ℕ × List ℕ → ℚ
  | (neg, ints, frs) =>
    (if neg then -1 else 1) * ((natOfDigits ints : ℚ) + (natOfDigits frs : ℚ) / 10 ^ frs.length)

/-- JavaScript `parseFloat` on decimal literals; `none` models NaN. -/
def jsParseFloat (s : String) : Option ℚ := (parseDecimal s).map decimalValue

/-- The JavaScript coercion `x || 0` applied to the result of `parseFloat`:
NaN (`none`) and `0` are falsy and become `0`; every other number — negative
numbers included — passes through unchanged (`App.js` lines 107 and 114). -/
def orZero : Option ℚ → ℚ
  | none => 0
  | some x => if x = 0 then 0 else x

/-- The ten asset field names of the assets state object (`App.js` 16-27). -/
inductive AssetField where
  | gold_24k_grams
  | gold_22k_grams
  | gold_18k_grams
  | silver_grams
  | cash_in_hand
  | bank_savings
  | business_inventory
  | investments
  | receivables
  | other_assets
deriving DecidableEq, Repr

/-- The three liability field names of the liabilities state object
(`App.js` 30-34). -/
inductive LiabilityField where
  | short_term_debts
  | immediate_expenses
  | other_liabilities
deriving DecidableEq, Repr

/-- The spread-update `{...prev, [field]: x}` on the assets state. -/
def setAssetField (a : AssetDeclaration) : AssetField → ℚ → AssetDeclaration
  | AssetField.gold_24k_grams, x => { a with gold_24k_grams := x }
  | AssetField.gold_22k_grams, x => { a with gold_22k_grams := x }
  | AssetField.gold_18k_grams, x => { a with gold_18k_grams := x }
  | AssetField.silver_grams, x => { a with silver_grams := x }
  | AssetField.cash_in_hand, x => { a with cash_in_hand := x }
  | AssetField.bank_savings, x => { a with bank_savings := x }
  | AssetField.business_inventory, x => { a with business_inventory := x }
  | AssetField.investments, x => { a with investments := x }
  | AssetField.receivables, x => { a with receivables := x }
  | AssetField.other_assets, x => { a with other_assets := x }

/-- Read an assets state field by name. -/
def getAssetField (a : AssetDeclaration) : AssetField → ℚ
  | AssetField.gold_24k_grams => a.gold_24k_grams
  | AssetField.gold_22k_grams => a.gold_22k_grams
  | AssetField.gold_18k_grams => a.gold_18k_grams
  | AssetField.silver_grams => a.silver_grams
  | AssetField.cash_in_hand => a.cash_in_hand
  | AssetField.bank_savings => a.bank_savings
  | AssetField.business_inventory => a.business_inventory
  | AssetField.investments => a.investments
  | AssetField.receivables => a.receivables
  | AssetField.other_assets => a.other_assets

/-- The spread-update `{...prev, [field]: x}` on the liabilities state. -/
def setLiabilityField (l : LiabilityDeclaration) : LiabilityField → ℚ → LiabilityDeclaration
  | LiabilityField.short_term_debts, x => { l with short_term_debts := x }
  | LiabilityField.immediate_expenses, x => { l with immediate_expenses := x }
  | LiabilityField.other_liabilities, x => { l with other_liabilities := x }

/-- Read a liabilities state field by name. -/
def getLiabilityField (l : LiabilityDeclaration) : LiabilityField → ℚ
  | LiabilityField.short_term_debts => l.short_term_debts
  | LiabilityField.immediate_expenses => l.immediate_expenses
  | LiabilityField.other_liabilities => l.other_liabilities

/-- `handleAssetChange` (`App.js` lines 104-109): stores
`parseFloat(value) || 0` into the named asset field. -/
def handleAssetChange (prev : AssetDeclaration) (field : AssetField)
    (value : String) : AssetDeclaration :=
  setAssetField prev field (orZero (jsParseFloat value))

/-- `handleLiabilityChange` (`App.js` lines 111-116): stores
`parseFloat(value) || 0` into the named liability field. -/
def handleLiabilityChange (prev : LiabilityDeclaration) (field : LiabilityField)
    (value : String) : LiabilityDeclaration :=
  setLiabilityField prev field (orZero (jsParseFloat value))

/-! ## Rate Cache (spec §4.2; `backend/server.py` absent from src/) -/

/-- Outcome of one Source Adapter attempt (spec §4.1): a tagged result,
either a complete RateQuote or a Failure (network error, timeout, malformed
payload, non-2xx). -/
inductive FetchResult where
  | success : RateQuote → FetchResult
  | failure : FetchResult
deriving DecidableEq, Repr

/-- Modelled from the spec: the Rate Cache state of §4.2 (backend absent
from src/): a nullable `last_good` live quote, a non-null hardcoded
`fallback` quote, and a TTL. -/
structure CacheState where
  last_good : Option RateQuote
  fallback : RateQuote
  ttl : ℚ
deriving DecidableEq, Repr

/-- Modelled from the spec: `get_current()` of §4.2 (backend absent from
src/): if `last_good` exists and its age is below the TTL, return it without
fetching; otherwise attempt a refresh — on success replace `last_good` and
return the new quote, on failure return the stale `last_good` if it exists,
else the fallback.  Returns the served quote and the updated cache state;
never an error. -/
def getCurrent (s : CacheState) (now : ℚ) (fetch : FetchResult) :
    RateQuote × CacheState :=
  match s.last_good with
  | some q =>
    if now - q.fetched_at < s.ttl then (q, s)
    else
      match fetch with
      | FetchResult.success q2 => (q2, { s with last_good := some q2 })
      | FetchResult.failure => (q, s)
  | none =>
    match fetch with
    | FetchResult.success q2 => (q2, { s with last_good := some q2 })
    | FetchResult.failure => (s.fallback, s)

/-- Run a sequence of `get_current()` calls, each with its wall-clock time
and the Source Adapter outcome an attempted refresh would see; collect the
served quotes and the final cache state. -/
def runCache : CacheState → List (ℚ × FetchResult) → List RateQuote × CacheState
  | s, [] => ([], s)
  | s, c :: rest =>
    let r := getCurrent s c.1 c.2
    let rs := runCache r.2 rest
    (r.1 :: rs.1, rs.2)

/-- A sample hardcoded fallback quote (source = FALLBACK per spec §4.2). -/
def fbQuote : RateQuote :=
  { gold_24k_per_gram := 7000
    gold_22k_per_gram := 6417
    gold_18k_per_gram := 5250
    silver_per_gram := 90
    fetched_at := 0
    source := RateSource.FALLBACK }

/-- A cache that has never seen a successful fetch: `last_good` is null. -/
def cacheEmpty : CacheState :=
  { last_good := none, fallback := fbQuote, ttl := 600 }

/-- A cache holding a fresh live quote (the §8 example quote, fetched at
time 0, TTL 600). -/
def cacheFresh : CacheState :=
  { last_good := some exQuote, fallback := fbQuote, ttl := 600 }

/-- A concrete trace of two failing refresh attempts. -/
def demoFailCalls : List (ℚ × FetchResult) :=
  [(0, FetchResult.failure), (700, FetchResult.failure)]

/-! ## External interfaces (spec §6) as read by the frontend -/

/-- Field name under which the frontend reads the gold threshold from the
`GET /api/nisab/thresholds` response (`App.js` line 213). -/
def appGoldThresholdField : String := "gold_value_inr"

/-- Field name under which the frontend reads the silver threshold from the
`GET /api/nisab/thresholds` response (`App.js` line 199). -/
def appSilverThresholdField : String := "silver_value_inr"

/-- Modelled from the spec: the GetCurrentRates response of §6 (backend
absent from src/), a JSON object with the four per-gram rates of the served
RateQuote; field names confirmed by the frontend reads in `App.js`
lines 66-68 and 157-165. -/
def getCurrentRatesResponse (q : RateQuote) : String → Option ℚ := fun k =>
  if k = "gold_24k_per_gram" then some q.gold_24k_per_gram
  else if k = "gold_22k_per_gram" then some q.gold_22k_per_gram
  else if k = "gold_18k_per_gram" then some q.gold_18k_per_gram
  else if k = "silver_per_gram" then some q.silver_per_gram
  else none

/-- Modelled from the spec: the GetNisabThresholds response of §6 (backend
absent from src/), derived via the §4.4 Nisab Calculator from the served
RateQuote; the field names are those the frontend caller reads in `App.js`
lines 199 and 213, namely `gold_value_inr` and `silver_value_inr`. -/
def getNisabThresholdsResponse (q : RateQuote) : String → Option ℚ := fun k =>
  if k = appGoldThresholdField then some (nisabThresholds q).gold_value
  else if k = appSilverThresholdField then some (nisabThresholds q).silver_value
  else none

/-! ## Helper lemmas -/

theorem resolveBasis_of_ne_gold (b : Option String) (h : b ≠ some "gold") :
    resolveBasis b = "silver" := by
  rw [resolveBasis, if_neg h]

theorem selectThreshold_gold (q : RateQuote) :
    selectThreshold "gold" q = (nisabThresholds q).gold_value := by
  rw [selectThreshold, if_pos rfl]

theorem selectThreshold_silver (q : RateQuote) :
    selectThreshold "silver" q = (nisabThresholds q).silver_value := by
  rw [selectThreshold, if_neg (by decide)]

theorem jsParseFloat_abc : jsParseFloat "abc" = none := by
  rw [jsParseFloat, show parseDecimal "abc" = none from by decide]
  rfl

theorem jsParseFloat_neg5 : jsParseFloat "-5" = some (-5) := by
  rw [jsParseFloat, show parseDecimal "-5" = some (true, [5], []) from by decide]
  have h1 : decimalValue (true, [5], []) = -5 := by
    norm_num [decimalValue, natOfDigits]
  simp only [Option.map_some', h1]

theorem orZero_some_of_ne (x : ℚ) (h : x ≠ 0) : orZero (some x) = x := by
  simp only [orZero]
  rw [if_neg h]

/-! ## Claims -/

/-- Claim C1: for every asset/liability declaration and chosen nisab
threshold, `zakat_amount` equals `net_wealth × 0.025` rounded half-up to 2
decimal places when `is_zakat_applicable` is true, and exactly 0 when it is
false; rounding is applied once at the final step, to the exact (never
intermediately rounded) difference of the exact asset and liability sums. -/
theorem zakat_amount_single_final_rounding (a : AssetDeclaration)
    (l : LiabilityDeclaration) (b : Option String) (q : RateQuote) :
    ((calculateZakat a l b q).is_zakat_applicable = true →
      (calculateZakat a l b q).zakat_amount
        = roundHalfUp2 ((totalAssets a q - totalLiabilities l) * (25 / 1000))) ∧
    ((calculateZakat a l b q).is_zakat_applicable = false →
      (calculateZakat a l b q).zakat_amount = 0) := by
  constructor <;> intro h <;>
    simp only [calculateZakat, decide_eq_true_eq, decide_eq_false_iff_not] at h ⊢
  · rw [if_pos h]
    rfl
  · rw [if_neg h]

/-- Witness for C1: the spec §8 example — 10 g of 24K gold and 40,000 cash
against 5,000 debt on the silver basis is applicable, the rounding theorem
applies, and the payable amount is 2,375. -/
theorem zakat_amount_single_final_rounding_witness :
    (calculateZakat exAssets exLiabilities (some "silver") exQuote).is_zakat_applicable
      = true ∧
    (calculateZakat exAssets exLiabilities (some "silver") exQuote).zakat_amount
      = roundHalfUp2 ((totalAssets exAssets exQuote - totalLiabilities exLiabilities)
          * (25 / 1000)) ∧
    (calculateZakat exAssets exLiabilities (some "silver") exQuote).zakat_amount = 2375 := by
  have happ : (calculateZakat exAssets exLiabilities (some "silver") exQuote).is_zakat_applicable
      = true := by
    simp only [calculateZakat, decide_eq_true_eq,
      resolveBasis_of_ne_gold (some "silver") (by decide), selectThreshold_silver]
    norm_num [nisabThresholds, netWealth, totalAssets, totalLiabilities, exAssets,
      exLiabilities, exQuote, initialAssets, initialLiabilities]
  refine ⟨happ,
    (zakat_amount_single_final_rounding exAssets exLiabilities (some "silver") exQuote).1 happ,
    ?_⟩
  rw [(zakat_amount_single_final_rounding exAssets exLiabilities (some "silver") exQuote).1 happ]
  norm_num [roundHalfUp2, totalAssets, totalLiabilities, exAssets, exLiabilities, exQuote,
    initialAssets, initialLiabilities]

/-- Claim C2: `is_zakat_applicable` is true iff `net_wealth ≥
nisab_threshold`, and net wealth exactly equal to the threshold is
applicable (inclusive boundary). -/
theorem zakat_applicable_iff_nisab_le_net (a : AssetDeclaration)
    (l : LiabilityDeclaration) (b : Option String) (q : RateQuote) :
    ((calculateZakat a l b q).is_zakat_applicable = true ↔
      (calculateZakat a l b q).nisab_threshold ≤ (calculateZakat a l b q).net_wealth) ∧
    ((calculateZakat a l b q).net_wealth = (calculateZakat a l b q).nisab_threshold →
      (calculateZakat a l b q).is_zakat_applicable = true) := by
  constructor
  · simp only [calculateZakat, decide_eq_true_eq]
  · intro h
    simp only [calculateZakat] at h ⊢
    simp only [decide_eq_true_eq]
    exact le_of_eq h.symm

/-- Witness for C2: a declaration whose net wealth is exactly the silver
Nisab threshold (48,988.80 at the §8 example rates) is applicable. -/
theorem zakat_applicable_iff_nisab_le_net_witness :
    (calculateZakat { initialAssets with cash_in_hand := 489888 / 10 }
      initialLiabilities (some "silver") exQuote).is_zakat_applicable = true := by
  apply (zakat_applicable_iff_nisab_le_net { initialAssets with cash_in_hand := 489888 / 10 }
    initialLiabilities (some "silver") exQuote).2
  simp only [calculateZakat, resolveBasis_of_ne_gold (some "silver") (by decide),
    selectThreshold_silver]
  norm_num [nisabThresholds, netWealth, totalAssets, totalLiabilities, exQuote,
    initialAssets, initialLiabilities]

/-- Claim C3: the Nisab Calculator returns `gold_value = 87.48 ×
gold_24k_per_gram` and `silver_value = 612.36 × silver_per_gram`; at the §8
example rates (gold 6000/g, silver 80/g) the silver Nisab is 48,988.80 and
the gold Nisab is 524,880. -/
theorem nisab_threshold_values :
    (∀ q : RateQuote,
      (nisabThresholds q).gold_value = 8748 / 100 * q.gold_24k_per_gram ∧
      (nisabThresholds q).silver_value = 61236 / 100 * q.silver_per_gram) ∧
    (nisabThresholds exQuote).silver_value = 489888 / 10 ∧
    (nisabThresholds exQuote).gold_value = 524880 := by
  refine ⟨fun q => ⟨rfl, rfl⟩, ?_, ?_⟩ <;> norm_num [nisabThresholds, exQuote]

/-- Counterexample to C4 as stated: `handleAssetChange` stores
`parseFloat(value) || 0`, so the negative input "-5" is stored as −5, not
clamped to zero. -/
theorem negative_input_not_clamped :
    getAssetField (handleAssetChange initialAssets AssetField.gold_24k_grams "-5")
      AssetField.gold_24k_grams = -5 ∧ ((-5 : ℚ) ≠ 0) := by
  constructor
  · rw [handleAssetChange, jsParseFloat_neg5, orZero_some_of_ne (-5) (by norm_num)]
    rfl
  · norm_num

/-- Claim C4 (amended): for every declaration field, a non-numeric input is
normalized to zero, and the handlers never reject an input — but a negative
parsed amount is stored unchanged, not clamped to zero. -/
theorem input_normalization_behavior (prevA : AssetDeclaration)
    (prevL : LiabilityDeclaration) (f : AssetField) (g : LiabilityField)
    (v : String) (x : ℚ) :
    (jsParseFloat v = none →
      getAssetField (handleAssetChange prevA f v) f = 0 ∧
      getLiabilityField (handleLiabilityChange prevL g v) g = 0) ∧
    (jsParseFloat v = some x → x < 0 →
      getAssetField (handleAssetChange prevA f v) f = x ∧
      getLiabilityField (handleLiabilityChange prevL g v) g = x) := by
  have hA : ∀ y : ℚ, getAssetField (setAssetField prevA f y) f = y := by
    intro y
    cases f <;> rfl
  have hL : ∀ y : ℚ, getLiabilityField (setLiabilityField prevL g y) g = y := by
    intro y
    cases g <;> rfl
  constructor
  · intro h
    rw [handleAssetChange, handleLiabilityChange, h]
    exact ⟨hA 0, hL 0⟩
  · intro h hneg
    rw [handleAssetChange, handleLiabilityChange, h,
      orZero_some_of_ne x (ne_of_lt hneg)]
    exact ⟨hA x, hL x⟩

/-- Witness for the amended C4: the non-numeric input "abc" stores 0 in
both an asset and a liability field, and the negative input "-5" is stored
as −5 in both. -/
theorem input_normalization_behavior_witness :
    (getAssetField (handleAssetChange initialAssets AssetField.cash_in_hand "abc")
        AssetField.cash_in_hand = 0 ∧
      getLiabilityField (handleLiabilityChange initialLiabilities
        LiabilityField.short_term_debts "abc") LiabilityField.short_term_debts = 0) ∧
    (getAssetField (handleAssetChange initialAssets AssetField.silver_grams "-5")
        AssetField.silver_grams = -5 ∧
      getLiabilityField (handleLiabilityChange initialLiabilities
        LiabilityField.other_liabilities "-5") LiabilityField.other_liabilities = -5) := by
  constructor
  · exact (input_normalization_behavior initialAssets initialLiabilities
      AssetField.cash_in_hand LiabilityField.short_term_debts "abc" 0).1 jsParseFloat_abc
  · exact (input_normalization_behavior initialAssets initialLiabilities
      AssetField.silver_grams LiabilityField.other_liabilities "-5" (-5)).2
      jsParseFloat_neg5 (by norm_num)

/-- Claim C5: `net_wealth` is exactly `total_assets − total_liabilities`
with no intermediate rounding, and it is not clamped at zero: when
liabilities exceed assets the stored net wealth is negative. -/
theorem net_wealth_exact_difference (a : AssetDeclaration)
    (l : LiabilityDeclaration) (b : Option String) (q : RateQuote) :
    (calculateZakat a l b q).net_wealth = totalAssets a q - totalLiabilities l ∧
    (totalAssets a q < totalLiabilities l → (calculateZakat a l b q).net_wealth < 0) := by
  refine ⟨rfl, fun h => ?_⟩
  show totalAssets a q - totalLiabilities l < 0
  exact sub_neg.mpr h

/-- Witness for C5: an all-zero asset declaration against 5,000 of debt
yields the exact, negative net wealth −5,000. -/
theorem net_wealth_exact_difference_witness :
    (calculateZakat initialAssets exLiabilities (some "silver") exQuote).net_wealth
      = totalAssets initialAssets exQuote - totalLiabilities exLiabilities ∧
    (calculateZakat initialAssets exLiabilities (some "silver") exQuote).net_wealth < 0 := by
  refine ⟨(net_wealth_exact_difference initialAssets exLiabilities (some "silver") exQuote).1,
    (net_wealth_exact_difference initialAssets exLiabilities (some "silver") exQuote).2 ?_⟩
  norm_num [totalAssets, totalLiabilities, initialAssets, initialLiabilities,
    exLiabilities, exQuote]

/-- Claim C6: when `nisab_basis` is omitted or is neither "gold" nor
"silver", the calculation uses the silver basis: the silver threshold is
selected and "silver" is echoed in the result. -/
theorem nisab_basis_defaults_to_silver (a : AssetDeclaration)
    (l : LiabilityDeclaration) (q : RateQuote) (b : Option String)
    (h : b = none ∨ ∃ s, b = some s ∧ s ≠ "gold" ∧ s ≠ "silver") :
    (calculateZakat a l b q).nisab_basis = "silver" ∧
    (calculateZakat a l b q).nisab_threshold = (nisabThresholds q).silver_value := by
  have hb : b ≠ some "gold" := by
    rcases h with h | ⟨s, rfl, hg, _⟩
    · simp [h]
    · simpa using hg
  refine ⟨resolveBasis_of_ne_gold b hb, ?_⟩
  show selectThreshold (resolveBasis b) q = (nisabThresholds q).silver_value
  rw [resolveBasis_of_ne_gold b hb, selectThreshold_silver]

/-- Witness for C6: the unrecognized basis "platinum" selects the silver
threshold and echoes "silver". -/
theorem nisab_basis_defaults_to_silver_witness :
    (calculateZakat exAssets exLiabilities (some "platinum") exQuote).nisab_basis
      = "silver" ∧
    (calculateZakat exAssets exLiabilities (some "platinum") exQuote).nisab_threshold
      = (nisabThresholds exQuote).silver_value :=
  nisab_basis_defaults_to_silver exAssets exLiabilities exQuote (some "platinum")
    (Or.inr ⟨"platinum", rfl, by decide, by decide⟩)

/-- A cache with no live quote serves the fallback on a failed refresh and
is left unchanged, so a trace of failing calls serves only fallbacks. -/
theorem runCache_all_failure (calls : List (ℚ × FetchResult)) (s : CacheState)
    (hs : s.last_good = none) (hf : ∀ c ∈ calls, c.2 = FetchResult.failure) :
    (runCache s calls).1 = List.replicate calls.length s.fallback ∧
    (runCache s calls).2 = s := by
  induction calls with
  | nil => exact ⟨rfl, rfl⟩
  | cons c rest ih =>
    have hc : c.2 = FetchResult.failure := hf c (List.mem_cons_self c rest)
    have hstep : getCurrent s c.1 c.2 = (s.fallback, s) := by
      simp only [getCurrent, hs, hc]
    have hrest := ih fun d hd => hf d (List.mem_cons_of_mem c hd)
    simp only [runCache, hstep, List.length_cons, List.replicate_succ]
    exact ⟨by rw [hrest.1], hrest.2⟩

/-- Claim C7: `get_current()` always returns a RateQuote and never an
error: a fresh `last_good` is returned as-is; on a failed refresh the stale
`last_good` is returned when it exists, else the hardcoded fallback; and
along any trace of calls in which the Source Adapter always fails, a cache
that never saw a live quote serves the fallback on every single call. -/
theorem cache_fallback_guarantee (s : CacheState) (now : ℚ)
    (calls : List (ℚ × FetchResult)) :
    (∀ (q : RateQuote) (f : FetchResult), s.last_good = some q →
      now - q.fetched_at < s.ttl → (getCurrent s now f).1 = q) ∧
    (∀ q : RateQuote, s.last_good = some q →
      (getCurrent s now FetchResult.failure).1 = q) ∧
    (s.last_good = none → (getCurrent s now FetchResult.failure).1 = s.fallback) ∧
    (s.last_good = none → (∀ c ∈ calls, c.2 = FetchResult.failure) →
      (runCache s calls).1 = List.replicate calls.length s.fallback) := by
  refine ⟨?_, ?_, ?_, ?_⟩
  · intro q f hq hfresh
    simp only [getCurrent, hq]
    rw [if_pos hfresh]
  · intro q hq
    simp only [getCurrent, hq]
    by_cases h : now - q.fetched_at < s.ttl
    · rw [if_pos h]
    · rw [if_neg h]
  · intro hq
    simp only [getCurrent, hq]
  · intro hq hf
    exact (runCache_all_failure calls s hq hf).1

/-- Witness for C7: a cache that never saw a live quote returns the
hardcoded fallback on a failed refresh, and serves the fallback on every
call of a trace in which the adapter always fails. -/
theorem cache_fallback_guarantee_witness :
    (getCurrent cacheEmpty 0 FetchResult.failure).1 = fbQuote ∧
    (runCache cacheEmpty demoFailCalls).1 = [fbQuote, fbQuote] := by
  constructor
  · exact (cache_fallback_guarantee cacheEmpty 0 []).2.2.1 rfl
  · have h := (cache_fallback_guarantee cacheEmpty 0 demoFailCalls).2.2.2 rfl
      (by decide)
    rw [h]
    rfl

/-- Claim C8: with a `last_good` quote younger than the TTL, `get_current()`
returns it without touching the state, so a repeated call still returns the
bit-identical RateQuote. -/
theorem cache_idempotent_within_ttl (s : CacheState) (t1 t2 : ℚ)
    (f1 f2 : FetchResult) (q : RateQuote) (hq : s.last_good = some q)
    (h1 : t1 - q.fetched_at < s.ttl) (h2 : t2 - q.fetched_at < s.ttl) :
    getCurrent s t1 f1 = (q, s) ∧
    (getCurrent (getCurrent s t1 f1).2 t2 f2).1 = (getCurrent s t1 f1).1 := by
  have e1 : getCurrent s t1 f1 = (q, s) := by
    simp only [getCurrent, hq]
    rw [if_pos h1]
  refine ⟨e1, ?_⟩
  rw [e1]
  simp only [getCurrent, hq]
  rw [if_pos h2]

/-- Witness for C8: a cache holding the §8 example quote (fetched at time 0,
TTL 600) serves it unchanged at times 100 and 200. -/
theorem cache_idempotent_within_ttl_witness :
    getCurrent cacheFresh 100 FetchResult.failure = (exQuote, cacheFresh) ∧
    (getCurrent (getCurrent cacheFresh 100 FetchResult.failure).2 200
      FetchResult.failure).1 = (getCurrent cacheFresh 100 FetchResult.failure).1 :=
  cache_idempotent_within_ttl cacheFresh 100 200 FetchResult.failure
    FetchResult.failure exQuote rfl
    (by norm_num [cacheFresh, exQuote]) (by norm_num [cacheFresh, exQuote])

/-- Counterexample to C9 as stated: the thresholds response read by the
frontend does not use the field names `gold_value` and `silver_value` — the
frontend reads `gold_value_inr` and `silver_value_inr` (`App.js` lines 199
and 213), and the response carries nothing under the plain names. -/
theorem nisab_fields_not_plain_names :
    appGoldThresholdField ≠ "gold_value" ∧
    appSilverThresholdField ≠ "silver_value" ∧
    getNisabThresholdsResponse fbQuote "gold_value" = none ∧
    getNisabThresholdsResponse fbQuote "silver_value" = none := by
  refine ⟨by decide, by decide, ?_, ?_⟩ <;>
    · simp only [getNisabThresholdsResponse]
      rw [if_neg (by decide), if_neg (by decide)]

/-- Claim C9 (amended): GetNisabThresholds() returns an object whose fields
are named `gold_value_inr` and `silver_value_inr` — the names the frontend
reads — holding the §4.4 thresholds derived from the same RateQuote whose
per-gram rates GetCurrentRates serves. -/
theorem nisab_endpoint_inr_fields (q : RateQuote) (g s : ℚ)
    (hg : getCurrentRatesResponse q "gold_24k_per_gram" = some g)
    (hs : getCurrentRatesResponse q "silver_per_gram" = some s) :
    getNisabThresholdsResponse q appGoldThresholdField = some (8748 / 100 * g) ∧
    getNisabThresholdsResponse q appSilverThresholdField = some (61236 / 100 * s) := by
  simp only [getCurrentRatesResponse] at hg hs
  rw [if_pos trivial] at hg
  rw [if_neg (by decide), if_neg (by decide), if_neg (by decide), if_pos trivial] at hs
  have hg2 : q.gold_24k_per_gram = g := Option.some.inj hg
  have hs2 : q.silver_per_gram = s := Option.some.inj hs
  constructor
  · simp only [getNisabThresholdsResponse]
    rw [if_pos trivial, ← hg2]
    rfl
  · simp only [getNisabThresholdsResponse]
    rw [if_neg (by decide), if_pos trivial, ← hs2]
    rfl

/-- Witness for the amended C9: at the §8 example quote, the `_inr` fields
hold the thresholds derived from the very rates the rates endpoint serves. -/
theorem nisab_endpoint_inr_fields_witness :
    getNisabThresholdsResponse exQuote appGoldThresholdField
      = some (8748 / 100 * 6000) ∧
    getNisabThresholdsResponse exQuote appSilverThresholdField
      = some (61236 / 100 * 80) :=
  nisab_endpoint_inr_fields exQuote 6000 80
    (by simp only [getCurrentRatesResponse]; rw [if_pos trivial]; rfl)
    (by simp only [getCurrentRatesResponse]
        rw [if_neg (by decide), if_neg (by decide), if_neg (by decide), if_pos trivial]
        rfl)
